import Mathlib

/-!
Verification of the allocation core of the ironic repository.

The development shallowly embeds the data model and the operations of the
allocation subsystem (allocation create / get / list / update / delete,
trait and candidate-node validation, notification emission, and the
concurrent node-reservation protocol) and proves the specified properties
about them.  The identity-based metric lookup (`NodeMetric.get`) is embedded
directly from `ironic/objects/metrics.py`; the allocation API controller and
conductor are not part of the source tree, so their operations are modelled
from the specification, with the repository's test suite pinning down the
observable behaviour.
-/

/-- Error taxonomy of the allocation core (spec section 7). -/
inductive IronicError where
  | invalidIdentity (ident : String)
  | notFound
  | badRequest (msg : String)
  | nodeLocked
  | methodNotAllowed
deriving DecidableEq

/-- HTTP status code under which each error is surfaced to API callers. -/
def httpStatus : IronicError → Nat
  | IronicError.invalidIdentity _ => 400
  | IronicError.notFound => 404
  | IronicError.badRequest _ => 400
  | IronicError.nodeLocked => 409
  | IronicError.methodNotAllowed => 405

/-- Embeds `oslo_utils.strutils.is_int_like`.  For a string `val` it computes
`str(int(val)) == str(val)` (false when `int(val)` raises).  A string equals
the canonical representation of its integer value exactly when it is a
canonical base-10 integer literal: either `"0"`, or a nonempty digit run with
no leading zero, optionally preceded by `-` (and then with a nonzero leading
digit, since `str(int("-0")) = "0"`). -/
def isCanonicalNat : List Char → Bool
  | [] => false
  | [c] => c.isDigit
  | c :: rest => c.isDigit && c != '0' && rest.all Char.isDigit

def is_int_like (s : String) : Bool :=
  match s.toList with
  | '-' :: rest =>
    match rest with
    | [] => false
    | c :: cs => c.isDigit && c != '0' && cs.all Char.isDigit
  | l => isCanonicalNat l

/-- Result of `NodeMetric.get`: either the lookup is dispatched to
`get_by_id` with the given identity, or `InvalidIdentity` is raised. -/
inductive MetricGetResult where
  | byId (ident : String)
  | invalidIdentity (ident : String)
deriving DecidableEq

/-- Embeds `NodeMetric.get` from `ironic/objects/metrics.py` lines 39-49:
if `strutils.is_int_like(ident)` the call is dispatched to
`get_by_id(context, ident)`, otherwise `InvalidIdentity(identity=ident)` is
raised. -/
def NodeMetric.get (ident : String) : MetricGetResult :=
  if is_int_like ident then MetricGetResult.byId ident
  else MetricGetResult.invalidIdentity ident

/-- Allocation lifecycle states (spec section 4.3). -/
inductive AllocState where
  | allocating
  | active
  | error
deriving DecidableEq

/-- Modelled from the spec: the node attributes the allocator reads
(spec section 3, Node). -/
structure Node where
  id : Nat
  uuid : String
  name : Option String
  resource_class : String
  traits : List String
  available : Bool
deriving DecidableEq

/-- Modelled from the spec: the Allocation record (spec section 3). -/
structure Allocation where
  id : Nat
  uuid : String
  name : Option String
  state : AllocState
  node_id : Option Nat
  resource_class : String
  traits : List String
  candidate_nodes : List String
  extra : List (String × String)
  last_error : Option String
  created_at : Option Nat
  updated_at : Option Nat
deriving DecidableEq

/-- Modelled from the spec: the payload of a create request
(spec section 6, CreateAllocation). -/
structure CreateRequest where
  uuid : Option String
  name : Option String
  resource_class : Option String
  traits : List String
  candidate_nodes : List String
  extra : List (String × String)
deriving DecidableEq

/-- Characters allowed inside a trait token: uppercase letters, digits and
underscores. -/
def isTraitChar (c : Char) : Bool := c.isUpper || c.isDigit || c == '_'

/-- Modelled from the spec: the trait validation of the API controller, which
is not in the source tree.  The spec words the pattern as "an uppercase token
optionally prefixed CUSTOM_", but the repository's test
`test_create_allocation_invalid_trait` rejects the unprefixed uppercase token
`FOO_BAR`, so here a valid trait is `CUSTOM_` followed by a nonempty run of
trait characters: the prefix is mandatory. -/
def isValidTrait (t : String) : Bool :=
  t.take 7 == "CUSTOM_" && t.drop 7 != "" && (t.drop 7).toList.all isTraitChar

/-- The trait naming pattern exactly as the spec words it: an uppercase token
optionally prefixed `CUSTOM_`.  Kept separate from `isValidTrait` so the two
can be compared. -/
def specTraitPattern (t : String) : Bool :=
  let core := if t.take 7 == "CUSTOM_" then t.drop 7 else t
  core != "" && core.toList.all isTraitChar

/-- Modelled from the spec: resolution of one candidate-node entry against the
inventory, by uuid or by name (spec section 3, candidate_nodes). -/
def resolveCandidate (inventory : List Node) (ident : String) : Option Node :=
  inventory.find? (fun nd => nd.uuid == ident || nd.name == some ident)

/-- Modelled from the spec: resolution of the whole candidate-node list; every
entry must resolve to an existing node, and each resolved entry is replaced by
the node's uuid, preserving order. -/
def resolveCandidates (inventory : List Node) : List String → Option (List String)
  | [] => some []
  | c :: cs =>
    match resolveCandidate inventory c, resolveCandidates inventory cs with
    | some nd, some rest => some (nd.uuid :: rest)
    | _, _ => none

/-- Modelled from the spec: allocation lookup by identity, uuid or name
(spec section 6, GetAllocation). -/
def lookupAllocation (st : List Allocation) (ident : String) : Option Allocation :=
  st.find? (fun a => a.uuid == ident || a.name == some ident)

/-- Modelled from the spec: create-request validation and record construction
(spec section 4.3, create): resource_class present and 1 to 80 characters,
traits well-formed, candidate nodes resolvable, uuid assigned when absent and
not already taken; the record is persisted in state `allocating` with no node
and no `updated_at`. -/
def createAllocation (inventory : List Node) (st : List Allocation)
    (req : CreateRequest) (freshId : Nat) (genUuid : String) (now : Nat) :
    Except IronicError (Allocation × List Allocation) :=
  match req.resource_class with
  | none => Except.error (IronicError.badRequest "resource_class is mandatory")
  | some rc =>
    if rc.length == 0 || 80 < rc.length then
      Except.error (IronicError.badRequest "resource_class must be 1 to 80 characters")
    else if !req.traits.all isValidTrait then
      Except.error (IronicError.badRequest "some traits do not match the trait naming pattern")
    else
      match resolveCandidates inventory req.candidate_nodes with
      | none =>
        Except.error (IronicError.badRequest "some candidate nodes are malformed or can not be found")
      | some resolved =>
        let u := req.uuid.getD genUuid
        if st.any (fun a => a.uuid == u) then
          Except.error (IronicError.badRequest "an allocation with this uuid already exists")
        else
          let a : Allocation :=
            { id := freshId, uuid := u, name := req.name,
              state := AllocState.allocating, node_id := none,
              resource_class := rc, traits := req.traits,
              candidate_nodes := resolved, extra := req.extra,
              last_error := none, created_at := some now, updated_at := none }
          Except.ok (a, st ++ [a])

/-- Modelled from the spec: the API-level create handler.  It returns the
response together with the resulting store; on a validation error the store is
returned unchanged, since validation happens before anything is persisted. -/
def createAllocationApi (inventory : List Node) (st : List Allocation)
    (req : CreateRequest) (freshId : Nat) (genUuid : String) (now : Nat) :
    Except IronicError Allocation × List Allocation :=
  match createAllocation inventory st req freshId genUuid now with
  | Except.ok (a, st2) => (Except.ok a, st2)
  | Except.error e => (Except.error e, st)

/-- Modelled from the spec: the sort-key allow-list for ListAllocations
(spec section 6): `uuid` and `name`; arbitrary fields such as `extra` are
invalid sort keys. -/
def allowedSortKeys : List String := ["uuid", "name"]

/-- Error message produced for an invalid sort key; it names the offending
key. -/
def sortKeyErrorMsg (k : String) : String :=
  "The sort_key value " ++ k ++ " is an invalid field for sorting"

/-- The field an allocation is sorted by under a given sort key. -/
def allocSortField (k : String) (a : Allocation) : String :=
  if k == "name" then a.name.getD "" else a.uuid

/-- Insertion into a list sorted by the given string key. -/
def insertSorted (key : Allocation → String) (a : Allocation) :
    List Allocation → List Allocation
  | [] => [a]
  | b :: bs => if key a ≤ key b then a :: b :: bs else b :: insertSorted key a bs

/-- Insertion sort of the allocation listing by the given key. -/
def sortAllocations (k : String) (st : List Allocation) : List Allocation :=
  st.foldr (insertSorted (allocSortField k)) []

/-- Modelled from the spec: ListAllocations (spec section 6): the sort key is
checked against the allow-list first; an invalid key fails with BadRequest
naming the key, otherwise the listing is returned ordered by that key. -/
def listAllocations (st : List Allocation) (sortKey : String) :
    Except IronicError (List Allocation) :=
  if allowedSortKeys.contains sortKey then Except.ok (sortAllocations sortKey st)
  else Except.error (IronicError.badRequest (sortKeyErrorMsg sortKey))

/-- Modelled from the spec: UpdateAllocation (spec sections 4.3 and 6):
update-in-place is not a supported operation; every attempt is rejected with
MethodNotAllowed before the store is touched. -/
def updateAllocationApi (st : List Allocation) (_ident : String)
    (_patch : List (String × String)) :
    Except IronicError Allocation × List Allocation :=
  (Except.error IronicError.methodNotAllowed, st)

/-- Modelled from the spec: DeleteAllocation / destroy (spec section 4.3):
the record is looked up by identity; when the associated node is held by an
incompatible in-progress operation the destroy fails with NodeLocked and the
store is unchanged; otherwise the record is removed.  `lockedNodes` lists the
nodes currently held by incompatible operations elsewhere. -/
def destroyAllocationApi (st : List Allocation) (lockedNodes : List Nat)
    (ident : String) : Except IronicError Unit × List Allocation :=
  match lookupAllocation st ident with
  | none => (Except.error IronicError.notFound, st)
  | some a =>
    match a.node_id with
    | some n =>
      if lockedNodes.contains n then (Except.error IronicError.nodeLocked, st)
      else (Except.ok (), st.filter (fun b => b.id != a.id))
    | none => (Except.ok (), st.filter (fun b => b.id != a.id))

/-- Status of an emitted notification. -/
inductive NotifStatus where
  | start
  | end_
  | error
deriving DecidableEq

/-- One emitted notification: the flow it belongs to and its status. -/
structure Notification where
  action : String
  status : NotifStatus
deriving DecidableEq

def isStartNotif (nt : Notification) : Bool := nt.status == NotifStatus.start

def isTerminalNotif (nt : Notification) : Bool :=
  nt.status == NotifStatus.end_ || nt.status == NotifStatus.error

/-- Modelled from the spec: the notification wrapper around the create flow
(spec section 6, Notification Emitter): START is emitted when the flow
begins, then one terminal notification, END on success and ERROR on
failure. -/
def runCreateFlow (inventory : List Node) (st : List Allocation)
    (req : CreateRequest) (freshId : Nat) (genUuid : String) (now : Nat) :
    (Except IronicError Allocation × List Allocation) × List Notification :=
  match createAllocationApi inventory st req freshId genUuid now with
  | (Except.ok a, st2) =>
    ((Except.ok a, st2),
     [Notification.mk "create" NotifStatus.start,
      Notification.mk "create" NotifStatus.end_])
  | (Except.error e, st2) =>
    ((Except.error e, st2),
     [Notification.mk "create" NotifStatus.start,
      Notification.mk "create" NotifStatus.error])

/-- Modelled from the spec: the notification wrapper around the delete flow
(spec section 6, Notification Emitter). -/
def runDeleteFlow (st : List Allocation) (lockedNodes : List Nat)
    (ident : String) :
    (Except IronicError Unit × List Allocation) × List Notification :=
  match destroyAllocationApi st lockedNodes ident with
  | (Except.ok u, st2) =>
    ((Except.ok u, st2),
     [Notification.mk "delete" NotifStatus.start,
      Notification.mk "delete" NotifStatus.end_])
  | (Except.error e, st2) =>
    ((Except.error e, st2),
     [Notification.mk "delete" NotifStatus.start,
      Notification.mk "delete" NotifStatus.error])

/-- Value of one field of the rendered API representation. -/
inductive FieldVal where
  | str (s : String)
  | optStr (s : Option String)
  | strList (l : List String)
  | pairs (l : List (String × String))
deriving DecidableEq

/-- Display name of an allocation state. -/
def stateName : AllocState → String
  | AllocState.allocating => "allocating"
  | AllocState.active => "active"
  | AllocState.error => "error"

/-- The uuid of the node referenced by an internal node_id, if any. -/
def nodeUuidOf (inventory : List Node) (node_id : Option Nat) : Option String :=
  node_id.bind (fun i => (inventory.find? (fun nd => nd.id == i)).map Node.uuid)

/-- Modelled from the spec and the repository's tests: the API representation
of an allocation.  The internal numeric node_id is translated to the node's
uuid and exposed as `node_uuid`; no `node_id` field is ever emitted
(tests `test_one` and `test_get_one`: "never expose the node_id"). -/
def renderAllocation (inventory : List Node) (a : Allocation) :
    List (String × FieldVal) :=
  [("uuid", FieldVal.str a.uuid),
   ("name", FieldVal.optStr a.name),
   ("state", FieldVal.str (stateName a.state)),
   ("node_uuid", FieldVal.optStr (nodeUuidOf inventory a.node_id)),
   ("resource_class", FieldVal.str a.resource_class),
   ("traits", FieldVal.strList a.traits),
   ("candidate_nodes", FieldVal.strList a.candidate_nodes),
   ("extra", FieldVal.pairs a.extra),
   ("last_error", FieldVal.optStr a.last_error)]

/-- Modelled from the spec: GetAllocation (spec section 6), returning the
rendered representation of the record found by identity. -/
def getAllocationApi (inventory : List Node) (st : List Allocation)
    (ident : String) : Except IronicError (List (String × FieldVal)) :=
  match lookupAllocation st ident with
  | some a => Except.ok (renderAllocation inventory a)
  | none => Except.error IronicError.notFound

/-- Modelled from the spec: ListAllocations (spec section 6), returning the
rendered representations of the sorted listing. -/
def listAllocationsApi (inventory : List Node) (st : List Allocation)
    (sortKey : String) : Except IronicError (List (List (String × FieldVal))) :=
  match listAllocations st sortKey with
  | Except.ok l => Except.ok (l.map (renderAllocation inventory))
  | Except.error e => Except.error e

/-- Holder of a node's reservation field: one of our allocations (by
allocation id) or some external actor (spec section 3, reservation_holder). -/
inductive Holder where
  | alloc (i : Nat)
  | externalActor (who : String)
deriving DecidableEq

/-- The per-allocation record of the system-level model: lifecycle state and
the node held, if any. -/
structure AllocRec where
  state : AllocState
  node : Option Nat
deriving DecidableEq

/-- Modelled from the spec: the shared system state (spec section 5): the
allocation table keyed by allocation id, and each node's reservation field
keyed by node id, written only through the atomic reservation primitive. -/
structure SysState where
  alloc : Nat → Option AllocRec
  resv : Nat → Option Holder

/-- Point update of the allocation table. -/
def setAlloc (s : SysState) (i : Nat) (v : Option AllocRec) : SysState :=
  { s with alloc := fun j => if j = i then v else s.alloc j }

/-- Point update of a node's reservation field. -/
def setResv (s : SysState) (n : Nat) (v : Option Holder) : SysState :=
  { s with resv := fun m => if m = n then v else s.resv m }

/-- The empty system: no allocations, no reservations. -/
def initState : SysState :=
  { alloc := fun _ => none, resv := fun _ => none }

/-- Modelled from the spec: the atomic steps of the concurrent system
(spec sections 4.2, 4.3 and 5).  `matchSuccess` is the atomic check-then-set
reservation: it requires the node to be unreserved and, in the same
indivisible step, records the allocation as holder, sets node_id and
activates the allocation.  `destroyActive` releases the destroyed
allocation's own reservation.  External actors may reserve free nodes and
release their own reservations; a release is idempotent per holder and never
removes a reservation held by someone else (spec section 4.2). -/
inductive Step : SysState → SysState → Prop where
  | create (s : SysState) (i : Nat) :
      s.alloc i = none →
      Step s (setAlloc s i (some (AllocRec.mk AllocState.allocating none)))
  | matchSuccess (s : SysState) (i n : Nat) :
      s.alloc i = some (AllocRec.mk AllocState.allocating none) →
      s.resv n = none →
      Step s
        (setResv (setAlloc s i (some (AllocRec.mk AllocState.active (some n))))
          n (some (Holder.alloc i)))
  | matchFailure (s : SysState) (i : Nat) :
      s.alloc i = some (AllocRec.mk AllocState.allocating none) →
      Step s (setAlloc s i (some (AllocRec.mk AllocState.error none)))
  | destroyActive (s : SysState) (i n : Nat) :
      s.alloc i = some (AllocRec.mk AllocState.active (some n)) →
      Step s (setResv (setAlloc s i none) n none)
  | destroyIdle (s : SysState) (i : Nat) (r : AllocRec) :
      s.alloc i = some r →
      r.node = none →
      Step s (setAlloc s i none)
  | externalReserve (s : SysState) (n : Nat) (who : String) :
      s.resv n = none →
      Step s (setResv s n (some (Holder.externalActor who)))
  | externalRelease (s : SysState) (n : Nat) (who : String) :
      s.resv n = some (Holder.externalActor who) →
      Step s (setResv s n none)

/-- Reachability: every state the concurrent system can be in after any
interleaving of atomic steps, starting from the empty system. -/
inductive Reachable : SysState → Prop where
  | init : Reachable initState
  | step {s s2 : SysState} : Reachable s → Step s s2 → Reachable s2

/-- The key invariant: an allocation that references a node is active and is
the recorded holder of that node's reservation. -/
def HoldsInv (s : SysState) : Prop :=
  ∀ i r n, s.alloc i = some r → r.node = some n →
    r.state = AllocState.active ∧ s.resv n = some (Holder.alloc i)

/-- The system after one create step: allocation 0 is allocating. -/
def demoState1 : SysState :=
  setAlloc initState 0 (some (AllocRec.mk AllocState.allocating none))

/-- The system after the create and a successful match of allocation 0 on
node 5. -/
def demoState2 : SysState :=
  setResv (setAlloc demoState1 0 (some (AllocRec.mk AllocState.active (some 5))))
    5 (some (Holder.alloc 0))

/-- A create request carrying the trait FOO_BAR, which matches the pattern as
the spec words it but is rejected by the code (as the repository's test
demands). -/
def fooBarRequest : CreateRequest :=
  { uuid := some "alloc-uuid-1", name := none,
    resource_class := some "baremetal",
    traits := ["CUSTOM_GPU", "FOO_BAR"], candidate_nodes := [], extra := [] }

/-- A create request whose traits all carry the mandatory CUSTOM_ prefix. -/
def goodTraitRequest : CreateRequest :=
  { uuid := some "alloc-uuid-2", name := none,
    resource_class := some "baremetal",
    traits := ["CUSTOM_GPU", "CUSTOM_FOO_BAR"], candidate_nodes := [],
    extra := [] }

/-- The record created for `goodTraitRequest` on an empty store. -/
def goodAlloc : Allocation :=
  { id := 1, uuid := "alloc-uuid-2", name := none,
    state := AllocState.allocating, node_id := none,
    resource_class := "baremetal",
    traits := ["CUSTOM_GPU", "CUSTOM_FOO_BAR"], candidate_nodes := [],
    extra := [], last_error := none, created_at := some 0,
    updated_at := none }

/-- An existing node addressable by name. -/
def testNode1 : Node :=
  { id := 1, uuid := "node-uuid-1", name := some "node-1",
    resource_class := "baremetal", traits := [], available := true }

/-- An existing node addressable by uuid. -/
def testNode2 : Node :=
  { id := 2, uuid := "node-uuid-2", name := none,
    resource_class := "baremetal", traits := [], available := true }

/-- A create request naming one candidate by name and one by uuid. -/
def candidateRequest : CreateRequest :=
  { uuid := some "alloc-uuid-4", name := none,
    resource_class := some "baremetal", traits := [],
    candidate_nodes := ["node-1", "node-uuid-2"], extra := [] }

/-- The record created for `candidateRequest`: both candidates stored as
resolved node uuids. -/
def candidateAlloc : Allocation :=
  { id := 1, uuid := "alloc-uuid-4", name := none,
    state := AllocState.allocating, node_id := none,
    resource_class := "baremetal", traits := [],
    candidate_nodes := ["node-uuid-1", "node-uuid-2"], extra := [],
    last_error := none, created_at := some 0, updated_at := none }

/-- A create request whose candidate entry resolves to no node. -/
def badCandidateRequest : CreateRequest :=
  { uuid := some "alloc-uuid-5", name := none,
    resource_class := some "baremetal", traits := [],
    candidate_nodes := ["1a1a1a1a-2b2b-3c3c-4d4d-5e5e5e5e5e5e"], extra := [] }

/-- An allocation holding node 5, used as the concrete input of the destroy
claims. -/
def lockedAlloc : Allocation :=
  { id := 7, uuid := "alloc-uuid-7", name := some "alloc1",
    state := AllocState.active, node_id := some 5,
    resource_class := "baremetal", traits := [], candidate_nodes := [],
    extra := [], last_error := none, created_at := some 0,
    updated_at := some 1 }

/-- An active allocation holding node 1, rendered in the C10 witness. -/
def activeAlloc : Allocation :=
  { id := 3, uuid := "alloc-uuid-3", name := some "alloc-three",
    state := AllocState.active, node_id := some 1,
    resource_class := "baremetal", traits := [], candidate_nodes := [],
    extra := [], last_error := none, created_at := some 0,
    updated_at := some 1 }

theorem holdsInv_init : HoldsInv initState := by
  intro i r n hi hn
  simp [initState] at hi

theorem holdsInv_step {s s2 : SysState} (hs : HoldsInv s) (hstep : Step s s2) :
    HoldsInv s2 := by
  cases hstep with
  | create i hi =>
    intro j r n hj hn
    simp only [setAlloc] at hj
    by_cases hji : j = i
    · rw [if_pos hji] at hj
      injection hj with hj2
      subst hj2
      simp at hn
    · rw [if_neg hji] at hj
      exact hs j r n hj hn
  | matchSuccess i n hi hrn =>
    intro j r m hj hm
    simp only [setAlloc, setResv] at hj ⊢
    by_cases hji : j = i
    · subst hji
      rw [if_pos rfl] at hj
      injection hj with hj2
      subst hj2
      have hm2 : n = m := by simpa using hm
      subst hm2
      exact ⟨rfl, by rw [if_pos rfl]⟩
    · rw [if_neg hji] at hj
      obtain ⟨hact, hres⟩ := hs j r m hj hm
      refine ⟨hact, ?_⟩
      by_cases hmn : m = n
      · subst hmn
        rw [hres] at hrn
        cases hrn
      · rw [if_neg hmn]
        exact hres
  | matchFailure i hi =>
    intro j r n hj hn
    simp only [setAlloc] at hj
    by_cases hji : j = i
    · rw [if_pos hji] at hj
      injection hj with hj2
      subst hj2
      simp at hn
    · rw [if_neg hji] at hj
      exact hs j r n hj hn
  | destroyActive i n hi =>
    intro j r m hj hm
    simp only [setAlloc, setResv] at hj ⊢
    by_cases hji : j = i
    · rw [if_pos hji] at hj
      cases hj
    · rw [if_neg hji] at hj
      obtain ⟨hact, hres⟩ := hs j r m hj hm
      refine ⟨hact, ?_⟩
      by_cases hmn : m = n
      · subst hmn
        obtain ⟨_, hres2⟩ := hs i (AllocRec.mk AllocState.active (some m)) m hi rfl
        rw [hres] at hres2
        have hj2 : j = i := by
          have h3 := Option.some.inj hres2
          injection h3
        exact absurd hj2 hji
      · rw [if_neg hmn]
        exact hres
  | destroyIdle i r0 hi hnode =>
    intro j r m hj hm
    simp only [setAlloc] at hj
    by_cases hji : j = i
    · rw [if_pos hji] at hj
      cases hj
    · rw [if_neg hji] at hj
      exact hs j r m hj hm
  | externalReserve n who hn =>
    intro j r m hj hm
    simp only [setResv] at hj ⊢
    obtain ⟨hact, hres⟩ := hs j r m hj hm
    refine ⟨hact, ?_⟩
    by_cases hmn : m = n
    · subst hmn
      rw [hres] at hn
      cases hn
    · rw [if_neg hmn]
      exact hres
  | externalRelease n who hn =>
    intro j r m hj hm
    simp only [setResv] at hj ⊢
    obtain ⟨hact, hres⟩ := hs j r m hj hm
    refine ⟨hact, ?_⟩
    by_cases hmn : m = n
    · subst hmn
      rw [hres] at hn
      simp at hn
    · rw [if_neg hmn]
      exact hres

theorem holdsInv_reachable {s : SysState} (h : Reachable s) : HoldsInv s := by
  induction h with
  | init => exact holdsInv_init
  | step _ hstep ih => exact holdsInv_step ih hstep

/-- C1: For every reachable system state, no two allocations are
simultaneously in state `active` with the same `node_id`: at most one
allocation holds a given node at a time, even when multiple create requests
race for the same node concurrently (any interleaving of atomic steps). -/
theorem c1_at_most_one_active_per_node (s : SysState) (hreach : Reachable s)
    (i j n : Nat) (a b : AllocRec)
    (hi : s.alloc i = some a) (hj : s.alloc j = some b)
    (ha : a.state = AllocState.active) (hb : b.state = AllocState.active)
    (han : a.node = some n) (hbn : b.node = some n) : i = j := by
  have h1 := holdsInv_reachable hreach i a n hi han
  have h2 := holdsInv_reachable hreach j b n hj hbn
  have heq : Holder.alloc i = Holder.alloc j :=
    Option.some.inj (h1.2.symm.trans h2.2)
  injection heq

/-- The demo state is reachable: create allocation 0, then atomically reserve
node 5 for it. -/
theorem demoState2_reachable : Reachable demoState2 :=
  Reachable.step (Reachable.step Reachable.init (Step.create initState 0 rfl))
    (Step.matchSuccess demoState1 0 5 rfl rfl)

theorem c1_at_most_one_active_per_node_witness :
    demoState2.alloc 0 = some (AllocRec.mk AllocState.active (some 5)) ∧
      (0 : Nat) = 0 :=
  ⟨rfl,
   c1_at_most_one_active_per_node demoState2 demoState2_reachable 0 0 5
     (AllocRec.mk AllocState.active (some 5))
     (AllocRec.mk AllocState.active (some 5)) rfl rfl rfl rfl rfl rfl⟩

/-- C2 counterexample: the claim says a numeric-looking (int-like) identity
makes the identity-based get fail with `InvalidIdentity` and that lookup
succeeds only via uuid or name.  In the source the dispatch is the other way
around: `"123"` is int-like and is dispatched to `get_by_id` (no
`InvalidIdentity`), while the non-numeric name `"node-1"` is rejected with
`InvalidIdentity`. -/
theorem c2_numeric_identity_counterexample :
    is_int_like "123" = true ∧
      NodeMetric.get "123" ≠ MetricGetResult.invalidIdentity "123" ∧
      NodeMetric.get "node-1" = MetricGetResult.invalidIdentity "node-1" := by
  refine ⟨rfl, ?_, rfl⟩
  intro h
  exact absurd h (by decide)

/-- C2 amended: `NodeMetric.get` accepts exactly the int-like identities,
dispatching them to `get_by_id`; every identity that is not int-like
(including uuids and names) is rejected with `InvalidIdentity`. -/
theorem c2_get_dispatch (ident : String) :
    (is_int_like ident = true →
      NodeMetric.get ident = MetricGetResult.byId ident) ∧
    (is_int_like ident = false →
      NodeMetric.get ident = MetricGetResult.invalidIdentity ident) := by
  constructor
  · intro h
    simp [NodeMetric.get, h]
  · intro h
    simp [NodeMetric.get, h]

theorem c2_get_dispatch_witness :
    NodeMetric.get "456" = MetricGetResult.byId "456" ∧
      NodeMetric.get "node-1" = MetricGetResult.invalidIdentity "node-1" :=
  ⟨(c2_get_dispatch "456").1 rfl, (c2_get_dispatch "node-1").2 rfl⟩

theorem createAllocation_invalid_trait (inventory : List Node)
    (st : List Allocation) (req : CreateRequest) (freshId : Nat)
    (genUuid : String) (now : Nat)
    (hbad : req.traits.all isValidTrait = false) :
    ∃ msg, createAllocation inventory st req freshId genUuid now =
      Except.error (IronicError.badRequest msg) := by
  unfold createAllocation
  split
  · exact ⟨_, rfl⟩
  · split
    · exact ⟨_, rfl⟩
    · split
      · exact ⟨_, rfl⟩
      · rename_i h2
        simp [hbad] at h2

theorem createAllocationApi_of_error (inventory : List Node)
    (st : List Allocation) (req : CreateRequest) (freshId : Nat)
    (genUuid : String) (now : Nat) (e : IronicError)
    (h : createAllocation inventory st req freshId genUuid now =
      Except.error e) :
    createAllocationApi inventory st req freshId genUuid now =
      (Except.error e, st) := by
  simp [createAllocationApi, h]

theorem createAllocationApi_ok_inv (inventory : List Node)
    (st : List Allocation) (req : CreateRequest) (freshId : Nat)
    (genUuid : String) (now : Nat) (a : Allocation) (st2 : List Allocation)
    (h : createAllocationApi inventory st req freshId genUuid now =
      (Except.ok a, st2)) :
    createAllocation inventory st req freshId genUuid now =
      Except.ok (a, st2) := by
  unfold createAllocationApi at h
  split at h
  · rename_i heq
    simp at h
    rw [heq, h.1, h.2]
  · simp at h

/-- C3 counterexample: `FOO_BAR` matches the spec's trait pattern (an
uppercase token optionally prefixed CUSTOM_), yet a create request carrying
it fails with BadRequest instead of being accepted, exactly as the
repository's test `test_create_allocation_invalid_trait` demands. -/
theorem c3_spec_pattern_counterexample :
    specTraitPattern "FOO_BAR" = true ∧
      createAllocationApi [] [] fooBarRequest 1 "gen" 0 =
        (Except.error
          (IronicError.badRequest
            "some traits do not match the trait naming pattern"),
         ([] : List Allocation)) :=
  ⟨rfl, rfl⟩

/-- C3 amended: every trait of the form `CUSTOM_` followed by an uppercase
token is accepted — a create that succeeds preserves the trait list in input
order and all its traits are of that form — and a create request carrying any
trait not of that form fails with BadRequest, leaving the store unchanged. -/
theorem c3_trait_validation (inventory : List Node) (st : List Allocation)
    (req : CreateRequest) (freshId : Nat) (genUuid : String) (now : Nat) :
    (req.traits.all isValidTrait = false →
      ∃ msg, createAllocationApi inventory st req freshId genUuid now =
        (Except.error (IronicError.badRequest msg), st)) ∧
    (∀ a st2,
      createAllocationApi inventory st req freshId genUuid now =
        (Except.ok a, st2) →
      a.traits = req.traits ∧ req.traits.all isValidTrait = true) := by
  constructor
  · intro hbad
    obtain ⟨msg, hmsg⟩ :=
      createAllocation_invalid_trait inventory st req freshId genUuid now hbad
    exact ⟨msg, createAllocationApi_of_error _ _ _ _ _ _ _ hmsg⟩
  · intro a st2 h
    have h2 := createAllocationApi_ok_inv _ _ _ _ _ _ _ _ h
    unfold createAllocation at h2
    split at h2
    · cases h2
    · split at h2
      · cases h2
      · split at h2
        · cases h2
        · rename_i htr
          split at h2
          · cases h2
          · dsimp only [] at h2
            split at h2
            · cases h2
            · simp at h2
              refine ⟨?_, ?_⟩
              · rw [← h2.1]
              · simpa using htr

theorem c3_trait_validation_witness :
    (∃ msg, createAllocationApi [] [] fooBarRequest 1 "gen" 0 =
      (Except.error (IronicError.badRequest msg), ([] : List Allocation))) ∧
    (goodAlloc.traits = goodTraitRequest.traits ∧
      goodTraitRequest.traits.all isValidTrait = true) :=
  ⟨(c3_trait_validation [] [] fooBarRequest 1 "gen" 0).1 rfl,
   (c3_trait_validation [] [] goodTraitRequest 1 "gen" 0).2 goodAlloc
     [goodAlloc] rfl⟩

theorem resolveCandidate_sound {inventory : List Node} {c : String} {nd : Node}
    (h : resolveCandidate inventory c = some nd) :
    nd ∈ inventory ∧ (nd.uuid = c ∨ nd.name = some c) := by
  unfold resolveCandidate at h
  refine ⟨List.mem_of_find?_eq_some h, ?_⟩
  have h2 := List.find?_some h
  simpa using h2

theorem resolveCandidates_sound {inventory : List Node} :
    ∀ {cs l : List String}, resolveCandidates inventory cs = some l →
      List.Forall₂
        (fun c u => ∃ nd, nd ∈ inventory ∧ (nd.uuid = c ∨ nd.name = some c) ∧
          u = nd.uuid) cs l := by
  intro cs
  induction cs with
  | nil =>
    intro l h
    unfold resolveCandidates at h
    cases h
    exact List.Forall₂.nil
  | cons c cs ih =>
    intro l h
    unfold resolveCandidates at h
    cases hc : resolveCandidate inventory c with
    | none =>
      cases hr : resolveCandidates inventory cs with
      | none => rw [hc, hr] at h; cases h
      | some rest => rw [hc, hr] at h; cases h
    | some nd =>
      cases hr : resolveCandidates inventory cs with
      | none => rw [hc, hr] at h; cases h
      | some rest =>
        rw [hc, hr] at h
        injection h with h2
        subst h2
        refine List.Forall₂.cons ?_ (ih hr)
        obtain ⟨hmem, hid⟩ := resolveCandidate_sound hc
        exact ⟨nd, hmem, hid, rfl⟩

theorem resolveCandidates_none_of_unresolved {inventory : List Node}
    {cs : List String} {c : String} (hmem : c ∈ cs)
    (hc : resolveCandidate inventory c = none) :
    resolveCandidates inventory cs = none := by
  induction cs with
  | nil => cases hmem
  | cons d ds ih =>
    unfold resolveCandidates
    rcases List.mem_cons.mp hmem with h1 | h1
    · subst h1
      cases hr : resolveCandidates inventory ds with
      | none => rw [hc]
      | some rest => rw [hc]
    · cases hd : resolveCandidate inventory d with
      | none =>
        cases hr : resolveCandidates inventory ds with
        | none => rfl
        | some rest => rfl
      | some nd => rw [ih h1]

theorem createAllocation_unresolved_candidate (inventory : List Node)
    (st : List Allocation) (req : CreateRequest) (freshId : Nat)
    (genUuid : String) (now : Nat)
    (hres : resolveCandidates inventory req.candidate_nodes = none) :
    ∃ msg, createAllocation inventory st req freshId genUuid now =
      Except.error (IronicError.badRequest msg) := by
  unfold createAllocation
  split
  · exact ⟨_, rfl⟩
  · split
    · exact ⟨_, rfl⟩
    · split
      · exact ⟨_, rfl⟩
      · split
        · exact ⟨_, rfl⟩
        · rename_i resolved heq
          rw [hres] at heq
          cases heq

/-- C4: for every create request with candidate nodes, each entry that
resolves to an existing node (by name or uuid) is stored as the resolved
node's uuid, entry by entry in order; and if any entry does not resolve to an
existing node, the create fails synchronously with BadRequest and the store
is unchanged (nothing is persisted). -/
theorem c4_candidate_nodes (inventory : List Node) (st : List Allocation)
    (req : CreateRequest) (freshId : Nat) (genUuid : String) (now : Nat) :
    ((∃ c, c ∈ req.candidate_nodes ∧ resolveCandidate inventory c = none) →
      ∃ msg, createAllocationApi inventory st req freshId genUuid now =
        (Except.error (IronicError.badRequest msg), st)) ∧
    (∀ a st2,
      createAllocationApi inventory st req freshId genUuid now =
        (Except.ok a, st2) →
      List.Forall₂
        (fun c u => ∃ nd, nd ∈ inventory ∧ (nd.uuid = c ∨ nd.name = some c) ∧
          u = nd.uuid) req.candidate_nodes a.candidate_nodes) := by
  constructor
  · rintro ⟨c, hmem, hc⟩
    obtain ⟨msg, hmsg⟩ :=
      createAllocation_unresolved_candidate inventory st req freshId genUuid
        now (resolveCandidates_none_of_unresolved hmem hc)
    exact ⟨msg, createAllocationApi_of_error _ _ _ _ _ _ _ hmsg⟩
  · intro a st2 h
    have h2 := createAllocationApi_ok_inv _ _ _ _ _ _ _ _ h
    unfold createAllocation at h2
    split at h2
    · cases h2
    · split at h2
      · cases h2
      · split at h2
        · cases h2
        · split at h2
          · cases h2
          · rename_i resolved heq
            dsimp only [] at h2
            split at h2
            · cases h2
            · simp at h2
              rw [← h2.1]
              exact resolveCandidates_sound heq

theorem c4_candidate_nodes_witness :
    (∃ msg, createAllocationApi [] [] badCandidateRequest 1 "gen" 0 =
      (Except.error (IronicError.badRequest msg), ([] : List Allocation))) ∧
    List.Forall₂
      (fun c u => ∃ nd, nd ∈ [testNode1, testNode2] ∧
        (nd.uuid = c ∨ nd.name = some c) ∧ u = nd.uuid)
      candidateRequest.candidate_nodes candidateAlloc.candidate_nodes :=
  ⟨(c4_candidate_nodes [] [] badCandidateRequest 1 "gen" 0).1
     ⟨"1a1a1a1a-2b2b-3c3c-4d4d-5e5e5e5e5e5e", by decide, rfl⟩,
   (c4_candidate_nodes [testNode1, testNode2] [] candidateRequest 1 "gen"
       0).2 candidateAlloc [candidateAlloc] rfl⟩

/-- C5: for every ListAllocations request whose sort key is not in the
allow-list (uuid, name), the operation fails with BadRequest (HTTP 400) and
the error message names the offending key. -/
theorem c5_invalid_sort_key (st : List Allocation) (k : String)
    (h : allowedSortKeys.contains k = false) :
    ∃ msg, listAllocations st k = Except.error (IronicError.badRequest msg) ∧
      httpStatus (IronicError.badRequest msg) = 400 ∧
      ∃ s1 s2, msg = s1 ++ k ++ s2 := by
  refine ⟨sortKeyErrorMsg k, ?_, rfl,
    "The sort_key value ", " is an invalid field for sorting", rfl⟩
  unfold listAllocations
  rw [h]
  rfl

theorem c5_invalid_sort_key_witness :
    ∃ msg, listAllocations [] "extra" =
      Except.error (IronicError.badRequest msg) ∧
      httpStatus (IronicError.badRequest msg) = 400 ∧
      ∃ s1 s2, msg = s1 ++ "extra" ++ s2 :=
  c5_invalid_sort_key [] "extra" rfl

/-- C6: every update-in-place attempt on an allocation fails with
MethodNotAllowed (HTTP 405) and the store is unchanged: every later lookup
sees exactly what it saw before the attempt. -/
theorem c6_update_not_allowed (st : List Allocation) (ident : String)
    (patch : List (String × String)) :
    (updateAllocationApi st ident patch).1 =
      Except.error IronicError.methodNotAllowed ∧
    httpStatus IronicError.methodNotAllowed = 405 ∧
    (updateAllocationApi st ident patch).2 = st ∧
    (∀ ident2, lookupAllocation (updateAllocationApi st ident patch).2 ident2 =
      lookupAllocation st ident2) :=
  ⟨rfl, rfl, rfl, fun _ => rfl⟩

/-- C7: every successful create returns the new record in state `allocating`
with a null node reference and null `updated_at`; the match outcome is not
awaited (the returned state is the initial, non-terminal one). -/
theorem c7_create_returns_allocating (inventory : List Node)
    (st : List Allocation) (req : CreateRequest) (freshId : Nat)
    (genUuid : String) (now : Nat) (a : Allocation) (st2 : List Allocation)
    (h : createAllocationApi inventory st req freshId genUuid now =
      (Except.ok a, st2)) :
    a.state = AllocState.allocating ∧ a.node_id = none ∧
      a.updated_at = none := by
  have h2 := createAllocationApi_ok_inv _ _ _ _ _ _ _ _ h
  unfold createAllocation at h2
  split at h2
  · cases h2
  · split at h2
    · cases h2
    · split at h2
      · cases h2
      · split at h2
        · cases h2
        · dsimp only [] at h2
          split at h2
          · cases h2
          · simp at h2
            rw [← h2.1]
            exact ⟨rfl, rfl, rfl⟩

theorem c7_create_returns_allocating_witness :
    goodAlloc.state = AllocState.allocating ∧ goodAlloc.node_id = none ∧
      goodAlloc.updated_at = none :=
  c7_create_returns_allocating [] [] goodTraitRequest 1 "gen" 0 goodAlloc
    [goodAlloc] rfl

/-- C8: destroying an allocation whose associated node is held by an
incompatible in-progress operation fails with NodeLocked, surfaced as HTTP
409 Conflict; the allocation record is left intact, and once the lock is gone
the same destroy succeeds, so the caller may retry. -/
theorem c8_destroy_node_locked (st : List Allocation)
    (lockedNodes lockedNodes2 : List Nat) (ident : String) (a : Allocation)
    (n : Nat)
    (hfind : lookupAllocation st ident = some a)
    (hnode : a.node_id = some n)
    (hlock : lockedNodes.contains n = true)
    (hunlock : lockedNodes2.contains n = false) :
    destroyAllocationApi st lockedNodes ident =
      (Except.error IronicError.nodeLocked, st) ∧
    httpStatus IronicError.nodeLocked = 409 ∧
    lookupAllocation (destroyAllocationApi st lockedNodes ident).2 ident =
      some a ∧
    (destroyAllocationApi st lockedNodes2 ident).1 = Except.ok () := by
  have hlock2 : n ∈ lockedNodes := by simpa using hlock
  have hunlock2 : n ∉ lockedNodes2 := by simpa using hunlock
  have hmain : destroyAllocationApi st lockedNodes ident =
      (Except.error IronicError.nodeLocked, st) := by
    simp [destroyAllocationApi, hfind, hnode, hlock2]
  refine ⟨hmain, rfl, ?_, ?_⟩
  · rw [hmain]
    exact hfind
  · simp [destroyAllocationApi, hfind, hnode, hunlock2]

theorem c8_destroy_node_locked_witness :
    destroyAllocationApi [lockedAlloc] [5] "alloc-uuid-7" =
      (Except.error IronicError.nodeLocked, [lockedAlloc]) ∧
    httpStatus IronicError.nodeLocked = 409 ∧
    lookupAllocation (destroyAllocationApi [lockedAlloc] [5]
      "alloc-uuid-7").2 "alloc-uuid-7" = some lockedAlloc ∧
    (destroyAllocationApi [lockedAlloc] [] "alloc-uuid-7").1 =
      Except.ok () :=
  c8_destroy_node_locked [lockedAlloc] [5] [] "alloc-uuid-7" lockedAlloc 5
    rfl rfl rfl rfl

/-- C9: every create flow and every delete flow emits exactly one START
notification and exactly one terminal notification (END on success, ERROR on
failure), whatever the outcome. -/
theorem c9_notification_counts (inventory : List Node) (st : List Allocation)
    (req : CreateRequest) (freshId : Nat) (genUuid : String) (now : Nat)
    (lockedNodes : List Nat) (ident : String) :
    ((runCreateFlow inventory st req freshId genUuid now).2.filter
      isStartNotif).length = 1 ∧
    ((runCreateFlow inventory st req freshId genUuid now).2.filter
      isTerminalNotif).length = 1 ∧
    ((runDeleteFlow st lockedNodes ident).2.filter isStartNotif).length = 1 ∧
    ((runDeleteFlow st lockedNodes ident).2.filter
      isTerminalNotif).length = 1 := by
  refine ⟨?_, ?_, ?_, ?_⟩
  · unfold runCreateFlow
    split <;> rfl
  · unfold runCreateFlow
    split <;> rfl
  · unfold runDeleteFlow
    split <;> rfl
  · unfold runDeleteFlow
    split <;> rfl

theorem renderAllocation_no_node_id (inventory : List Node) (a : Allocation) :
    ((renderAllocation inventory a).all (fun f => f.1 != "node_id")) = true ∧
    ("node_uuid", FieldVal.optStr (nodeUuidOf inventory a.node_id)) ∈
      renderAllocation inventory a := by
  constructor
  · rfl
  · simp [renderAllocation]

/-- C10: no representation returned by GetAllocation or ListAllocations
contains a `node_id` field; the associated node appears only through the
`node_uuid` field, carrying the referenced node's uuid when set. -/
theorem c10_node_id_not_exposed (inventory : List Node)
    (st : List Allocation) (ident sortKey : String) :
    (∀ fields, getAllocationApi inventory st ident = Except.ok fields →
      (fields.all (fun f => f.1 != "node_id")) = true ∧
      (∀ a, lookupAllocation st ident = some a →
        ("node_uuid", FieldVal.optStr (nodeUuidOf inventory a.node_id)) ∈
          fields)) ∧
    (∀ out, listAllocationsApi inventory st sortKey = Except.ok out →
      ∀ fields, fields ∈ out →
        (fields.all (fun f => f.1 != "node_id")) = true ∧
        ∃ a, fields = renderAllocation inventory a ∧
          ("node_uuid", FieldVal.optStr (nodeUuidOf inventory a.node_id)) ∈
            fields) := by
  constructor
  · intro fields h
    unfold getAllocationApi at h
    split at h
    · rename_i a0 ha0
      injection h with h2
      subst h2
      refine ⟨(renderAllocation_no_node_id inventory a0).1, ?_⟩
      intro a ha
      rw [ha0] at ha
      injection ha with ha2
      subst ha2
      exact (renderAllocation_no_node_id inventory a0).2
    · cases h
  · intro out h fields hmem
    unfold listAllocationsApi at h
    split at h
    · rename_i l hl
      injection h with h2
      subst h2
      obtain ⟨a, _, heq⟩ := List.mem_map.mp hmem
      refine ⟨?_, a, heq.symm, ?_⟩
      · rw [← heq]
        exact (renderAllocation_no_node_id inventory a).1
      · rw [← heq]
        exact (renderAllocation_no_node_id inventory a).2
    · cases h

theorem c10_node_id_not_exposed_witness :
    ((renderAllocation [testNode1] activeAlloc).all
      (fun f => f.1 != "node_id")) = true ∧
    ("node_uuid", FieldVal.optStr (nodeUuidOf [testNode1]
      activeAlloc.node_id)) ∈ renderAllocation [testNode1] activeAlloc := by
  have h := (c10_node_id_not_exposed [testNode1] [activeAlloc] "alloc-uuid-3"
    "uuid").1 (renderAllocation [testNode1] activeAlloc) rfl
  exact ⟨h.1, h.2 activeAlloc rfl⟩
